import Mathlib

/-!
Verification of the teleoperation control-loop script
`robosuite/scripts/demo_device_control.py` (robosuite-underwater).

The script's per-tick logic is embedded shallowly: numpy 3-vectors become
exact rational triples, 3x3 orientation matrices become `Matrix (Fin 3)
(Fin 3) ℚ`, and the mutable script state (the OSC pose accumulator
`cumulative_dpos`, including whether that name is bound at all) becomes an
explicit `LoopState` threaded through a step function `tick`.  Startup
(controller selection, config loading, environment construction) and the
per-episode re-homing branch are embedded as functions returning explicit
outcome values.
-/

namespace DemoDeviceControl

/-- A numpy 3-vector (translation), with exact rational components. -/
abbrev Vec3 : Type := ℚ × ℚ × ℚ

/-- A 3x3 orientation matrix (device rotation / end-effector rotation). -/
abbrev Mat3 : Type := Matrix (Fin 3) (Fin 3) ℚ

/-- Flatten a 3-vector into list form, as `np.concatenate` consumes it. -/
def vecToList (v : Vec3) : List ℚ := [v.1, v.2.1, v.2.2]

/-- Componentwise vector addition (numpy `+=` on a 3-vector). -/
def vadd (a b : Vec3) : Vec3 := (a.1 + b.1, a.2.1 + b.2.1, a.2.2 + b.2.2)

/-- Componentwise scaling (numpy `dpos * 0.1`). -/
def vscale (s : ℚ) (v : Vec3) : Vec3 := (v.1 * s, v.2.1 * s, v.2.2 * s)

/-- Device snapshot, lines 129-137 of the script: `state["dpos"]`,
`state["rotation"]` (absolute 3x3 orientation), `state["grasp"]`,
`state["reset"]`. -/
structure DeviceState where
  dpos : Vec3
  rotation : Mat3
  grasp : ℚ
  reset : Bool

/-- The two controller choices the loop branches on (`args.controller`,
validated at startup, lines 61-67). -/
inductive Controller
  | ik
  | osc
deriving DecidableEq

/-- Script state carried across ticks and episodes: the value of
`cumulative_dpos` together with whether that name is bound at all (it is
assigned only inside the `try` block at line 76, only for `osc`). -/
structure LoopState where
  cumulative : Vec3
  cumulativeBound : Bool
deriving DecidableEq

/-- Startup observables of lines 59-90: whether the `FileNotFoundError`
message was printed, whether `controller_config` was actually loaded
(non-`None`), whether `cumulative_dpos` got bound, and whether execution
reached `robosuite.make` (line 81). -/
structure StartupState where
  errorPrinted : Bool
  configLoaded : Bool
  cumulativeBound : Bool
  envConstructed : Bool
deriving DecidableEq

/-- Outcome of startup: `ValueError` raised for an unsupported controller
string (line 67), or the run continues with the observables above. -/
inductive StartupOutcome
  | valueError
  | started (st : StartupState)
deriving DecidableEq

/-- Lines 59-90 of the script.  An unsupported controller string prints an
error and raises `ValueError`.  Otherwise the config file is opened: on
success `controller_config` is loaded and, for `osc` only,
`cumulative_dpos = 0` is bound; on `FileNotFoundError` a message is printed
and execution falls through.  In every non-raising case control reaches
`robosuite.make` (line 81) unconditionally. -/
def startup (controller : String) (fileExists : Bool) : StartupOutcome :=
  if controller = "ik" ∨ controller = "osc" then
    if fileExists then
      .started ⟨false, true, controller == "osc", true⟩
    else
      .started ⟨true, false, false, true⟩
  else
    .valueError

/-- The panda re-homing joint command of line 122, written symbolically:
each joint value `a + b*pi` is the pair `(a, b)`; the list is
`[0, pi/16, 0, -pi/2 - pi/3, 0, pi - 0.2, -pi/4]`. -/
def pandaHome : List (ℚ × ℚ) :=
  [(0, 0), (0, 1/16), (0, 0), (0, -5/6), (0, 0), (-1/5, 1), (0, -1/4)]

/-- Outcome of the episode-start robot check: `exit` models the error
print plus `sys.exit()` (lines 124-125); `started cmd` continues into the
inner loop, with `cmd` the joint-position command issued (if any). -/
inductive EpisodeStartResult
  | exit
  | started (cmd : Option (List (ℚ × ℚ)))
deriving DecidableEq

/-- Lines 117-125 of the script: for `sawyer` the re-homing call is
commented out (the branch is `pass`), for `panda` the fixed joint command
is issued via `env.set_robot_joint_positions`, and any other robot name
prints an error and calls `sys.exit()`. -/
def episodeStart (robot : String) : EpisodeStartResult :=
  if robot = "sawyer" then .started none
  else if robot = "panda" then .started (some pandaHome)
  else .exit

/-- Line 145 of the script: `drotation = current.T.dot(rotation)` —
the relative rotation of the device target from the current end-effector
orientation. -/
def drotation (current rotation : Mat3) : Mat3 :=
  current.transpose * rotation

/-- Modelled from the spec: `robosuite.utils.transform_utils.mat2quat`
(called at line 149) is repository code not present under `src/`; the spec
says only that in IK mode `drotation` is converted to a quaternion, so the
output arity (4 components, each a function of the matrix entries) is what
is modelled here. -/
def mat2quat (m : Mat3) : List ℚ :=
  [m 0 0 + m 1 1 + m 2 2, m 2 1 - m 1 2, m 0 2 - m 2 0, m 1 0 - m 0 1]

/-- Modelled from the spec: `robosuite.utils.transform_utils.mat2euler`
(called at line 152) is repository code not present under `src/`; the spec
says only that in OSC mode `drotation` is converted to an Euler-angle
triple, so the output arity (3 components) is what is modelled here. -/
def mat2euler (m : Mat3) : List ℚ :=
  [m 2 1, m 0 2, m 1 0]

/-- Line 160 of the script: `grasp = grasp - 1.` — maps the raw device
grasp range [0, 2] onto the actuator range [-1, 1]. -/
def graspRemap (g : ℚ) : ℚ := g - 1

/-- Result of one pass through the inner loop body (lines 128-164):
`reset` models the `break` on a reset signal; `step action st` models one
emitted action (`env.step(action)`) with the updated script state;
`nameError` models the uncaught `NameError` raised at line 156 when
`cumulative_dpos += dpos * 0.1` runs while `cumulative_dpos` is unbound. -/
inductive TickResult
  | reset
  | step (action : List ℚ) (st : LoopState)
  | nameError
deriving DecidableEq

/-- Lines 128-164 of the script, one tick.  After the reset check the
relative rotation `drotation` is formed; in IK mode it is converted to a
quaternion and the raw `dpos` is used as the position term; in OSC mode it
is converted to Euler angles and `cumulative_dpos += dpos * 0.1` becomes
the position term (a `NameError` if `cumulative_dpos` is unbound).  The
grasp is remapped and the action assembled as
`np.concatenate([dpos, drotation, [grasp]])`. -/
def tick (c : Controller) (st : LoopState) (ds : DeviceState) (current : Mat3) :
    TickResult :=
  if ds.reset then .reset
  else
    match c with
    | .ik =>
        .step (vecToList ds.dpos ++ mat2quat (drotation current ds.rotation) ++
          [graspRemap ds.grasp]) st
    | .osc =>
        if st.cumulativeBound then
          .step (vecToList (vadd st.cumulative (vscale 0.1 ds.dpos)) ++
              mat2euler (drotation current ds.rotation) ++ [graspRemap ds.grasp])
            ⟨vadd st.cumulative (vscale 0.1 ds.dpos), true⟩
        else .nameError

/-- Outcome of running the inner loop on a finite stream of device
snapshots: the stream ran out with the loop still live, a reset signal
broke out to the outer loop, or a tick crashed with `NameError`.  In each
case the emitted actions are collected in order. -/
inductive EpisodeOutcome
  | ranOut (st : LoopState) (actions : List (List ℚ))
  | resetSignalled (st : LoopState) (actions : List (List ℚ))
  | crashed (actions : List (List ℚ))
deriving DecidableEq

/-- Run the inner `while True` loop (lines 128-164) over a finite list of
device snapshots, threading the script state. -/
def runEpisode (c : Controller) (current : Mat3) :
    List DeviceState → LoopState → EpisodeOutcome
  | [], st => .ranOut st []
  | ds :: rest, st =>
    match tick c st ds current with
    | .reset => .resetSignalled st []
    | .nameError => .crashed []
    | .step a st' =>
      match runEpisode c current rest st' with
      | .ranOut stf as => .ranOut stf (a :: as)
      | .resetSignalled stf as => .resetSignalled stf (a :: as)
      | .crashed as => .crashed (a :: as)

/-- The actions emitted during an episode run. -/
def actionsOf : EpisodeOutcome → List (List ℚ)
  | .ranOut _ as => as
  | .resetSignalled _ as => as
  | .crashed as => as

/-- The position component (first three elements) of each emitted action. -/
def positionsOf (o : EpisodeOutcome) : List (List ℚ) :=
  (actionsOf o).map (fun a => a.take 3)

/-- The script state at the start of the episode after a mid-session reset
signal: episode one runs until the device signals reset (the inner `break`
at line 139), then the outer loop body (lines 111-127: `env.reset()`,
camera, render, the robot re-homing check, `device.start_control()`) runs
again.  That body contains no assignment to `cumulative_dpos`, so the loop
state entering the next episode is exactly the state at the break; `none`
if episode one did not end in a reset signal or the robot check exits. -/
def stateAfterResetRestart (c : Controller) (robot : String) (current : Mat3)
    (inputs : List DeviceState) (st : LoopState) : Option LoopState :=
  match runEpisode c current inputs st with
  | .resetSignalled stf _ =>
    match episodeStart robot with
    | .started _ => some stf
    | .exit => none
  | _ => none

/-- A concrete device snapshot used to instantiate hypothesis-bearing
theorems: unit translation along x, identity orientation, neutral grasp,
no reset. -/
def dsA : DeviceState := ⟨(1, 0, 0), 1, 1, false⟩

/-- C4: in OSC mode, every non-reset tick with the accumulator bound
updates it by `accumulated += dpos * 0.1` and emits the updated
accumulated value (not `dpos`) as the position component of the action;
concretely, starting from zero, three ticks with `dpos = (1,0,0)` emit
position terms `(0.1,0,0)`, `(0.2,0,0)`, `(0.3,0,0)`. -/
theorem C4_osc_accumulates :
    (∀ (st : LoopState) (ds : DeviceState) (cur : Mat3) (a : List ℚ)
        (st' : LoopState),
        st.cumulativeBound = true → ds.reset = false →
        tick .osc st ds cur = .step a st' →
        st'.cumulative = vadd st.cumulative (vscale 0.1 ds.dpos) ∧
          a.take 3 = vecToList st'.cumulative) ∧
    positionsOf (runEpisode .osc 1 [dsA, dsA, dsA] ⟨(0, 0, 0), true⟩) =
      [[0.1, 0, 0], [0.2, 0, 0], [0.3, 0, 0]] := by
  constructor
  · intro st ds cur a st' hb hr ht
    simp [tick, hr, hb] at ht
    obtain ⟨rfl, rfl⟩ := ht
    exact ⟨rfl, rfl⟩
  · norm_num [positionsOf, actionsOf, runEpisode, tick, dsA, vadd, vscale,
      vecToList]

/-- Closed instance of the per-tick clause of `C4_osc_accumulates` at the
concrete snapshot `dsA` from the zeroed bound state. -/
theorem C4_witness :
    (⟨vadd (0, 0, 0) (vscale 0.1 dsA.dpos), true⟩ : LoopState).cumulative =
        vadd ((⟨(0, 0, 0), true⟩ : LoopState)).cumulative (vscale 0.1 dsA.dpos) ∧
      (vecToList (vadd (0, 0, 0) (vscale 0.1 dsA.dpos)) ++
          mat2euler (drotation 1 dsA.rotation) ++ [graspRemap dsA.grasp]).take 3 =
        vecToList (⟨vadd (0, 0, 0) (vscale 0.1 dsA.dpos), true⟩ : LoopState).cumulative :=
  C4_osc_accumulates.1 ⟨(0, 0, 0), true⟩ dsA 1 _ _ rfl rfl rfl

/-- C5: in IK mode, for every polled device state (non-reset), the position
component of the emitted action is the raw `dpos` from the device — no
scaling, no accumulation — and the loop state is unchanged. -/
theorem C5_ik_passthrough :
    ∀ (st : LoopState) (ds : DeviceState) (cur : Mat3) (a : List ℚ)
      (st' : LoopState),
      ds.reset = false → tick .ik st ds cur = .step a st' →
      a.take 3 = vecToList ds.dpos ∧ st' = st := by
  intro st ds cur a st' hr ht
  simp [tick, hr] at ht
  obtain ⟨rfl, rfl⟩ := ht
  exact ⟨rfl, rfl⟩

/-- Closed instance of `C5_ik_passthrough` at the concrete snapshot `dsA`. -/
theorem C5_witness :
    ((vecToList dsA.dpos ++ mat2quat (drotation 1 dsA.rotation) ++
        [graspRemap dsA.grasp]).take 3 = vecToList dsA.dpos) ∧
      (⟨(0, 0, 0), false⟩ : LoopState) = (⟨(0, 0, 0), false⟩ : LoopState) :=
  C5_ik_passthrough ⟨(0, 0, 0), false⟩ dsA 1 _ _ rfl rfl

/-- C6: grasp remapping is exactly `grasp - 1` and it is the last element
of the emitted action in both controller modes; it sends 0 to -1, 1 to 0,
2 to 1 and 1.7 to 0.7, and is a bijection from [0,2] onto [-1,1]. -/
theorem C6_grasp_remap :
    (∀ (c : Controller) (st : LoopState) (ds : DeviceState) (cur : Mat3)
        (a : List ℚ) (st' : LoopState),
        tick c st ds cur = .step a st' →
        a.getLast? = some (graspRemap ds.grasp)) ∧
    graspRemap 0 = -1 ∧ graspRemap 1 = 0 ∧ graspRemap 2 = 1 ∧
    graspRemap (17/10) = 7/10 ∧
    Set.BijOn graspRemap (Set.Icc (0 : ℚ) 2) (Set.Icc (-1 : ℚ) 1) := by
  refine ⟨?_, by norm_num [graspRemap], by norm_num [graspRemap],
    by norm_num [graspRemap], by norm_num [graspRemap], ?_, ?_, ?_⟩
  · intro c st ds cur a st' ht
    cases hrst : ds.reset with
    | true => simp [tick, hrst] at ht
    | false =>
      cases c with
      | ik =>
        simp [tick, hrst] at ht
        obtain ⟨rfl, -⟩ := ht
        rw [List.getLast?_append_of_ne_nil _ (by simp),
          List.getLast?_append_of_ne_nil _ (by simp)]
        rfl
      | osc =>
        cases hb : st.cumulativeBound with
        | false => simp [tick, hrst, hb] at ht
        | true =>
          simp [tick, hrst, hb] at ht
          obtain ⟨rfl, -⟩ := ht
          rw [List.getLast?_append_of_ne_nil _ (by simp),
            List.getLast?_append_of_ne_nil _ (by simp)]
          rfl
  · intro x hx
    simp only [Set.mem_Icc] at hx ⊢
    unfold graspRemap
    constructor <;> linarith [hx.1, hx.2]
  · intro x _ y _ h
    have h' : x - 1 = y - 1 := h
    linarith
  · intro y hy
    simp only [Set.mem_Icc] at hy
    exact ⟨y + 1, by simp only [Set.mem_Icc]; constructor <;> linarith [hy.1, hy.2],
      by unfold graspRemap; ring⟩

/-- Closed instance of the last-element clause of `C6_grasp_remap` in IK
mode at the concrete snapshot `dsA`. -/
theorem C6_witness :
    (vecToList dsA.dpos ++ mat2quat (drotation 1 dsA.rotation) ++
      [graspRemap dsA.grasp]).getLast? = some (graspRemap dsA.grasp) :=
  C6_grasp_remap.1 .ik ⟨(0, 0, 0), false⟩ dsA 1 _ _ rfl

/-- C7: for all orthonormal current end-effector rotation R and device
rotation D, the Frame Resolver output `drotation R D = transpose(R) * D`
is itself orthonormal.  (As a Lean function of exactly these two inputs,
`drotation` is pure by construction.) -/
theorem C7_frame_resolver_orthonormal :
    ∀ R D : Mat3, R.transpose * R = 1 → D.transpose * D = 1 →
      (drotation R D).transpose * drotation R D = 1 := by
  intro R D hR hD
  have hR' : R * R.transpose = 1 := Matrix.mul_eq_one_comm.mp hR
  show (R.transpose * D).transpose * (R.transpose * D) = 1
  rw [Matrix.transpose_mul, Matrix.transpose_transpose, mul_assoc,
    ← mul_assoc R, hR', one_mul, hD]

/-- Closed instance of `C7_frame_resolver_orthonormal` at the identity
matrices, which are orthonormal. -/
theorem C7_witness :
    ((1 : Mat3).transpose * 1 = 1) ∧
      (drotation 1 1).transpose * drotation 1 1 = 1 :=
  ⟨by simp, C7_frame_resolver_orthonormal 1 1 (by simp) (by simp)⟩

/-- C8: the emitted action is ordered translation, rotation, grasp; in IK
mode the rotation slot is the quaternion conversion of `drotation` and the
action has 3+4+1 = 8 components; in OSC mode it is the Euler conversion
and the action has 3+3+1 = 7 components. -/
theorem C8_action_shape :
    (∀ (st : LoopState) (ds : DeviceState) (cur : Mat3) (a : List ℚ)
        (st' : LoopState),
        ds.reset = false → tick .ik st ds cur = .step a st' →
        a = vecToList ds.dpos ++ mat2quat (drotation cur ds.rotation) ++
            [graspRemap ds.grasp] ∧ a.length = 8) ∧
    (∀ (st : LoopState) (ds : DeviceState) (cur : Mat3) (a : List ℚ)
        (st' : LoopState),
        ds.reset = false → st.cumulativeBound = true →
        tick .osc st ds cur = .step a st' →
        a = vecToList st'.cumulative ++ mat2euler (drotation cur ds.rotation) ++
            [graspRemap ds.grasp] ∧ a.length = 7) := by
  constructor
  · intro st ds cur a st' hr ht
    simp [tick, hr] at ht
    obtain ⟨rfl, rfl⟩ := ht
    exact ⟨rfl, by simp [vecToList, mat2quat]⟩
  · intro st ds cur a st' hr hb ht
    simp [tick, hr, hb] at ht
    obtain ⟨rfl, rfl⟩ := ht
    exact ⟨rfl, by simp [vecToList, mat2euler]⟩

/-- Closed instance of the IK clause of `C8_action_shape` at the concrete
snapshot `dsA`. -/
theorem C8_witness :
    (vecToList dsA.dpos ++ mat2quat (drotation 1 dsA.rotation) ++
          [graspRemap dsA.grasp]) =
        vecToList dsA.dpos ++ mat2quat (drotation 1 dsA.rotation) ++
          [graspRemap dsA.grasp] ∧
      (vecToList dsA.dpos ++ mat2quat (drotation 1 dsA.rotation) ++
        [graspRemap dsA.grasp]).length = 8 :=
  C8_action_shape.1 ⟨(0, 0, 0), false⟩ dsA 1 _ _ rfl rfl

/-- C1: evaluating the script at the failing input: in OSC mode, episode
one performs one tick with `dpos = (1,0,0)` (accumulating `(0.1,0,0)`) and
then receives a reset signal; the outer-loop episode restart (which
re-homes the panda but contains no assignment to `cumulative_dpos`)
carries the accumulated position `(0.1,0,0)` — not zero — into the next
episode, contradicting the reset law. -/
theorem C1_accumulator_not_reset :
    stateAfterResetRestart .osc "panda" 1 [dsA, ⟨(0, 0, 0), 1, 1, true⟩]
        ⟨(0, 0, 0), true⟩ = some ⟨(1/10, 0, 0), true⟩ ∧
      ((1/10, 0, 0) : Vec3) ≠ ((0, 0, 0) : Vec3) := by
  constructor
  · norm_num [stateAfterResetRestart, runEpisode, tick, dsA, episodeStart,
      vadd, vscale]
    rw [if_neg (by decide : ¬(("panda" : String) = "sawyer"))]
  · norm_num [Prod.ext_iff]

/-- C2 counterexample: with the controller config file missing, startup
prints the error message (`errorPrinted = true`) yet still reaches
`robosuite.make` (`envConstructed = true`) — the process does not abort
before environment construction. -/
theorem C2_counterexample :
    startup "osc" false = .started ⟨true, false, false, true⟩ := by
  decide

/-- C2 amended: a missing controller config file is reported immediately,
but the process continues: environment construction is reached with no
config loaded, and (in IK mode) the control loop then ticks normally. -/
theorem C2_missing_config_reports_and_continues :
    (∀ c : String, (c = "ik" ∨ c = "osc") →
        startup c false = .started ⟨true, false, false, true⟩) ∧
      tick .ik ⟨(0, 0, 0), false⟩ dsA 1 =
        .step (vecToList dsA.dpos ++ mat2quat (drotation 1 dsA.rotation) ++
          [graspRemap dsA.grasp]) ⟨(0, 0, 0), false⟩ := by
  constructor
  · intro c h
    unfold startup
    rw [if_pos h]
    simp
  · rfl

/-- Closed instance of `C2_missing_config_reports_and_continues` for the
IK controller. -/
theorem C2_witness :
    startup "ik" false = .started ⟨true, false, false, true⟩ :=
  C2_missing_config_reports_and_continues.1 "ik" (Or.inl rfl)

/-- C3 counterexample: `sawyer` is a supported robot identity (episode
start proceeds), yet no joint-position command is issued for it — the
re-homing call in its branch is commented out in the source. -/
theorem C3_counterexample : episodeStart "sawyer" = .started none := by
  decide

/-- C3 amended: at episode start the robot identity is checked against a
static table: `panda` gets the fixed joint-position command issued before
ticking begins, `sawyer` is recognized but gets no command, and every
other identity exits. -/
theorem C3_rehoming_table :
    episodeStart "panda" = .started (some pandaHome) ∧
    episodeStart "sawyer" = .started none ∧
    ∀ r : String, r ≠ "sawyer" → r ≠ "panda" → episodeStart r = .exit := by
  refine ⟨by simp [episodeStart], by decide, ?_⟩
  intro r h1 h2
  unfold episodeStart
  rw [if_neg h1, if_neg h2]

/-- Closed instance of `C3_rehoming_table` at an unsupported robot
identity. -/
theorem C3_witness : episodeStart "UR5" = .exit :=
  C3_rehoming_table.2.2 "UR5" (by decide) (by decide)

/-- C9 counterexample: the unsupported-robot exit is not the only
internally fatal path once the control loop has begun: on a session that
passed the robot check (panda), a tick with the OSC accumulator unbound
(the missing-config path) raises the fatal `NameError`. -/
theorem C9_counterexample :
    episodeStart "panda" ≠ .exit ∧
      tick .osc ⟨(0, 0, 0), false⟩ dsA 1 = .nameError := by
  constructor
  · decide
  · rfl

/-- C9 amended: an unrecognized robot identity exits cleanly at episode
start, and — provided the OSC accumulator was bound at startup, i.e. the
config loaded — no tick is ever fatal: a `NameError` tick can arise only
in OSC mode with the accumulator unbound. -/
theorem C9_unsupported_robot_exits :
    (∀ r : String, r ≠ "sawyer" → r ≠ "panda" → episodeStart r = .exit) ∧
      ∀ (c : Controller) (st : LoopState) (ds : DeviceState) (cur : Mat3),
        tick c st ds cur = .nameError →
        c = .osc ∧ st.cumulativeBound = false := by
  constructor
  · intro r h1 h2
    unfold episodeStart
    rw [if_neg h1, if_neg h2]
  · intro c st ds cur ht
    cases hrst : ds.reset with
    | true => simp [tick, hrst] at ht
    | false =>
      cases c with
      | ik => simp [tick, hrst] at ht
      | osc =>
        cases hb : st.cumulativeBound with
        | true => simp [tick, hrst, hb] at ht
        | false => exact ⟨rfl, rfl⟩

/-- Closed instance of `C9_unsupported_robot_exits` at an unsupported
robot identity. -/
theorem C9_witness : episodeStart "Jaco" = .exit :=
  C9_unsupported_robot_exits.1 "Jaco" (by decide) (by decide)

/-- C10: `cumulative_dpos` is bound at startup exactly when the controller
is `osc` and the config file loads; on the missing-config OSC path the
error is printed, the config stays unloaded and the accumulator unbound,
and then every first (non-reset) OSC tick fails with the unbound-name
error instead of producing an action. -/
theorem C10_unbound_accumulator :
    (∀ (c : String) (fe : Bool) (st : StartupState),
        startup c fe = .started st →
        (st.cumulativeBound = true ↔ c = "osc" ∧ fe = true)) ∧
    startup "osc" false = .started ⟨true, false, false, true⟩ ∧
    ∀ (st : LoopState) (ds : DeviceState) (cur : Mat3),
      st.cumulativeBound = false → ds.reset = false →
      tick .osc st ds cur = .nameError := by
  refine ⟨?_, by decide, ?_⟩
  · intro c fe st h
    by_cases h1 : c = "ik" ∨ c = "osc"
    · unfold startup at h
      rw [if_pos h1] at h
      cases fe with
      | true =>
        simp at h
        subst h
        simp
      | false =>
        simp at h
        subst h
        simp
    · unfold startup at h
      rw [if_neg h1] at h
      simp at h
  · intro st ds cur hb hr
    simp [tick, hr, hb]

/-- Closed instance of the `NameError` clause of
`C10_unbound_accumulator` at a concrete snapshot. -/
theorem C10_witness :
    tick .osc ⟨(0, 0, 0), false⟩ ⟨(2, 0, 0), 1, 1, false⟩ 1 = .nameError :=
  C10_unbound_accumulator.2.2 ⟨(0, 0, 0), false⟩ ⟨(2, 0, 0), 1, 1, false⟩ 1
    rfl rfl

end DemoDeviceControl
